import Mathlib

/-
Verification of the Khilonamart Amazon toys scraper (src/Khilonamart/script.py)
against its natural-language specification.

The Python source is shallowly embedded:
- pure text-processing helpers (clean_text, extract_price, extract_rating,
  extract_review_count, categorize_*) become Lean functions on String / Rat;
- BeautifulSoup containers become a record of a select_one function from
  selector strings to optional elements;
- the pagination while-loop of scrape_toys_category becomes an explicit
  state-machine (ScrapeState, scrape_step, scrape_loop), with a ghost trace
  field recording which page numbers were fetched;
- the retry loop of make_request_with_retry becomes a recursion over the
  attempt counter, with oracles supplying per-attempt HTTP outcomes and the
  random sleep durations, and a trace of every time.sleep call.
Network, logging and file output are side effects outside the embedded logic.
-/

set_option autoImplicit false

namespace Khilonamart

/-! ### Character and string helpers -/

/-- Python regex whitespace class as used by clean_text (re \s, ASCII part). -/
def pySpace (c : Char) : Bool :=
  c = ' ' || c = '\t' || c = '\n' || c = '\r' || c = '\x0b' || c = '\x0c'

/-- Collapse runs of whitespace to a single space, as re.sub of a whitespace
run by one space does. The flag records whether the previous kept character
was produced from a whitespace run. -/
def squeezeWs : List Char → Bool → List Char
  | [], _ => []
  | c :: rest, prevWs =>
    if pySpace c then
      if prevWs then squeezeWs rest true else ' ' :: squeezeWs rest true
    else c :: squeezeWs rest false

/-- Python str.strip on a character list. -/
def stripChars (l : List Char) : List Char :=
  ((l.dropWhile pySpace).reverse.dropWhile pySpace).reverse

/-- clean_text from the source: empty input maps to the empty string,
otherwise the input is stripped and internal whitespace runs collapse
to single spaces. -/
def clean_text (text : String) : String :=
  if text = "" then ""
  else String.mk (squeezeWs (stripChars text.data) false)

/-- Numeric value of a decimal digit character. -/
def digitVal (c : Char) : Nat := c.toNat - 48

/-- Value of a digit string, most significant digit first (Python int). -/
def natOfDigits (l : List Char) : Nat :=
  l.foldl (fun a c => a * 10 + digitVal c) 0

/-- price_text.replace of commas by nothing: drop every comma. -/
def stripCommas (l : List Char) : List Char :=
  l.filter (fun c => c ≠ ',')

/-- The optional two-decimal fraction of the price regex: a dot followed by
at least two digits contributes exactly those two digits. -/
def priceTail : List Char → Option (Char × Char)
  | '.' :: d1 :: d2 :: _ => if d1.isDigit && d2.isDigit then some (d1, d2) else none
  | _ => none

/-- Leftmost match of the price pattern (digit run, optionally a dot and two
more digits) on comma-free input. Returns the integer-part value and, when
the two-decimal fraction is present, its two-digit value. -/
def priceScan : List Char → Option (Nat × Option Nat)
  | [] => none
  | c :: rest =>
    if c.isDigit then
      some (natOfDigits (c :: rest.takeWhile Char.isDigit),
        (priceTail (rest.dropWhile Char.isDigit)).map
          (fun p => 10 * digitVal p.1 + digitVal p.2))
    else priceScan rest

/-- The float value of a matched price: integer part plus the optional
two-decimal fraction over 100. -/
def ratOfPriceParts : Nat × Option Nat → ℚ
  | (n, some f) => (n : ℚ) + (f : ℚ) / 100
  | (n, none) => (n : ℚ)

/-- extract_price from the source: commas are removed, then the leftmost
numeric pattern is parsed as a float; None on empty input or no match. -/
def extract_price (price_text : String) : Option ℚ :=
  if price_text = "" then none
  else (priceScan (stripCommas price_text.data)).map ratOfPriceParts

/-- Leftmost match of the rating pattern: a digit run, then an optional dot
followed by a possibly empty digit run. Returns the integer-part value, the
fraction-digit value and the number of fraction digits. -/
def ratingScan : List Char → Option (Nat × Nat × Nat)
  | [] => none
  | c :: rest =>
    if c.isDigit then
      let ds1 := c :: rest.takeWhile Char.isDigit
      match rest.dropWhile Char.isDigit with
      | '.' :: tail =>
        some (natOfDigits ds1, natOfDigits (tail.takeWhile Char.isDigit),
          (tail.takeWhile Char.isDigit).length)
      | _ => some (natOfDigits ds1, 0, 0)
    else ratingScan rest

/-- The float value of a matched rating: integer part plus fraction digits
scaled by their length. -/
def ratOfRatingParts : Nat × Nat × Nat → ℚ
  | (n, f, k) => (n : ℚ) + (f : ℚ) / (10 : ℚ) ^ k

/-- extract_rating from the source: first decimal-number substring, as a
float; None on empty input or when no digit occurs. -/
def extract_rating (rating_text : String) : Option ℚ :=
  if rating_text = "" then none
  else (ratingScan rating_text.data).map ratOfRatingParts

/-- Leftmost maximal digit run of comma-free input (the review regex after
the comma replacement). -/
def reviewMatch : List Char → Option (List Char)
  | [] => none
  | c :: rest =>
    if c.isDigit then some (c :: rest.takeWhile Char.isDigit)
    else reviewMatch rest

/-- extract_review_count from the source: commas removed, first digit run
parsed as an integer; None on empty input or when no digit occurs. -/
def extract_review_count (review_text : String) : Option Nat :=
  if review_text = "" then none
  else
    match reviewMatch (stripCommas review_text.data) with
    | some run => some (natOfDigits run)
    | none => none

/-- Substring containment on character lists (Python in operator). -/
def hasSubstr : List Char → List Char → Bool
  | [], pat => pat.isEmpty
  | h :: t, pat => pat.isPrefixOf (h :: t) || hasSubstr t pat

/-- The per-candidate validation of the review-count selector loop: the text
contains the case-insensitive substring review, or contains a digit. -/
def validReviewText (t : String) : Bool :=
  hasSubstr (t.data.map Char.toLower) ("review".data) || t.data.any Char.isDigit

/-! ### DOM model

A matched element exposes what the scraper reads from it: its visible text
and the two attributes the code asks for, each with the empty-string default
of Python dict.get. A container is a function from selector strings to an
optional matched element; a page maps a selector to the list of containers
it selects. -/

structure PageElement where
  text : String
  ariaLabel : String
  href : String
  deriving DecidableEq

structure Container where
  select_one : String → Option PageElement

structure Page where
  select : String → List Container

/-! ### Field extraction (scrape_product_details) -/

def base_url : String := "https://www.amazon.in"

/-- Model of urllib.parse.urljoin for the inputs this scraper produces:
an empty relative part keeps the base, an absolute URL replaces it, and a
site-relative path is appended to the origin. -/
def urljoin (base rel : String) : String :=
  if rel = "" then base
  else if String.isPrefixOf "http" rel then rel
  else base ++ rel

def name_selectors : List String :=
  ["h2 a span", "h2 span", "[data-cy=\"title-recipe-title\"] span",
   ".a-size-mini span", ".a-size-base-plus", ".s-size-mini span",
   "h2.a-size-mini span"]

def price_selectors : List String :=
  [".a-price-whole", ".a-offscreen", ".a-price .a-offscreen",
   "[data-a-color=\"price\"] .a-offscreen", ".a-price-symbol + .a-price-whole"]

def rating_selectors : List String :=
  [".a-icon-alt", "[aria-label*=\"stars\"]", "[aria-label*=\"rating\"]",
   ".a-star-small .a-icon-alt"]

def review_selectors : List String :=
  ["a[href*=\"#customerReviews\"]", "[aria-label*=\"review\"]",
   "span.a-size-base", "a.a-link-normal"]

/-- The simple selector fallback loop: the first selector whose select_one
matches wins; None when none match. -/
def firstMatch (c : Container) : List String → Option PageElement
  | [] => none
  | s :: rest =>
    match c.select_one s with
    | some e => some e
    | none => firstMatch c rest

/-- The review-count selector loop of the source. The loop variable is
overwritten on every iteration and the loop breaks only on a validated
candidate, so when the last selector matches an element that fails
validation, that element is still the loop's final value. -/
def findReviewElement (c : Container) : List String → Option PageElement
  | [] => none
  | s :: rest =>
    match c.select_one s with
    | some e =>
      if validReviewText e.text then some e
      else if rest.isEmpty then some e
      else findReviewElement c rest
    | none => findReviewElement c rest

/-- Modelled from the spec wording for the reviewCount chain: the first
candidate, in selector order, whose text passes validation; None when no
candidate validates. Used only to compare the code's loop against the spec. -/
def firstValidatedCandidate (c : Container) : List String → Option PageElement
  | [] => none
  | s :: rest =>
    match c.select_one s with
    | some e => if validReviewText e.text then some e else firstValidatedCandidate c rest
    | none => firstValidatedCandidate c rest

structure ProductRecord where
  name : String
  url : String
  price : Option ℚ
  rating : Option ℚ
  reviewCount : Option Nat
  deriving DecidableEq

def extract_name_field (c : Container) : String :=
  match firstMatch c name_selectors with
  | some e => clean_text e.text
  | none => ""

def extract_url_field (c : Container) : String :=
  match (c.select_one "h2 a").orElse (fun _ => c.select_one "a[href*=\"/dp/\"]") with
  | some e => urljoin base_url e.href
  | none => ""

def extract_price_field (c : Container) : Option ℚ :=
  match firstMatch c price_selectors with
  | some e => extract_price e.text
  | none => none

def extract_rating_field (c : Container) : Option ℚ :=
  match firstMatch c rating_selectors with
  | some e => extract_rating (if e.ariaLabel ≠ "" then e.ariaLabel else e.text)
  | none => none

def extract_review_field (c : Container) : Option Nat :=
  match findReviewElement c review_selectors with
  | some e => extract_review_count e.text
  | none => none

/-- scrape_product_details from the source: the five fields are extracted
independently, each by its own selector chain. -/
def scrape_product_details (c : Container) : ProductRecord :=
  { name := extract_name_field c
    url := extract_url_field c
    price := extract_price_field c
    rating := extract_rating_field c
    reviewCount := extract_review_field c }

/-! ### Pagination loop (scrape_toys_category)

The while-loop of scrape_toys_category is a state machine. A page fetch is
modelled by an oracle from page numbers to an optional Page: None stands for
make_request_with_retry returning None for that page. The fetched field is a
ghost trace recording, in order, the page numbers for which a request was
issued. -/

structure ScrapeState where
  page_num : Nat
  products_scraped : Nat
  consecutive_failures : Nat
  products_data : List ProductRecord
  fetched : List Nat
  deriving DecidableEq

def product_selectors : List String :=
  ["[data-component-type=\"s-search-result\"]", ".s-result-item[data-asin]",
   "[data-asin]:not([data-asin=\"\"])", ".s-widget-container .s-result-item"]

/-- The container-selector fallback: the first strategy that yields at least
one container wins; the empty list when every strategy comes up empty. -/
def find_containers (p : Page) : List String → List Container
  | [] => []
  | s :: rest =>
    let cs := p.select s
    if cs.isEmpty then find_containers p rest else cs

/-- The guard of the while-loop of scrape_toys_category. -/
def loop_cond (max_pages max_products : Nat) (s : ScrapeState) : Prop :=
  s.page_num ≤ max_pages ∧ s.products_scraped < max_products ∧
    s.consecutive_failures < 3

instance (mp mx : Nat) (s : ScrapeState) : Decidable (loop_cond mp mx s) := by
  unfold loop_cond; infer_instance

/-- The per-container loop of one page: break once products_scraped reaches
max_products, append a record exactly when its extracted name is non-empty.
Returns the updated products_scraped counter and products_data list. -/
def process_containers (mx : Nat) : List Container → Nat → List ProductRecord →
    Nat × List ProductRecord
  | [], k, acc => (k, acc)
  | c :: rest, k, acc =>
    if mx ≤ k then (k, acc)
    else
      let pd := scrape_product_details c
      if pd.name ≠ "" then process_containers mx rest (k + 1) (acc ++ [pd])
      else process_containers mx rest k acc

/-- One iteration of the while-loop body: issue the page request (trace it),
then either count a failure (no response, or no containers located) or reset
consecutive_failures and process the containers. Every branch advances
page_num. -/
def scrape_step (o : Nat → Option Page) (mx : Nat) (s : ScrapeState) : ScrapeState :=
  let s1 : ScrapeState := { s with fetched := s.fetched ++ [s.page_num] }
  match o s.page_num with
  | none =>
    { s1 with consecutive_failures := s1.consecutive_failures + 1,
              page_num := s1.page_num + 1 }
  | some page =>
    let containers := find_containers page product_selectors
    if containers.isEmpty then
      { s1 with consecutive_failures := s1.consecutive_failures + 1,
                page_num := s1.page_num + 1 }
    else
      let res := process_containers mx containers s1.products_scraped s1.products_data
      { s1 with consecutive_failures := 0,
                products_scraped := res.1,
                products_data := res.2,
                page_num := s1.page_num + 1 }

/-- The while-loop, driven by fuel. Every iteration increases page_num and the
guard demands page_num at most max_pages, so fuel max_pages from page 1 is
never exhausted while the guard still holds. -/
def scrape_loop (o : Nat → Option Page) (mp mx : Nat) : Nat → ScrapeState → ScrapeState
  | 0, s => s
  | fuel + 1, s =>
    if loop_cond mp mx s then scrape_loop o mp mx fuel (scrape_step o mx s) else s

/-- A run of scrape_toys_category on an instance whose products_data field
currently holds init, returning the final loop state. -/
def scrape_run (o : Nat → Option Page) (init : List ProductRecord)
    (mp mx : Nat) : ScrapeState :=
  scrape_loop o mp mx mp
    { page_num := 1, products_scraped := 0, consecutive_failures := 0,
      products_data := init, fetched := [] }

/-- scrape_toys_category returns self.products_data after the loop. -/
def scrape_toys_category (o : Nat → Option Page) (init : List ProductRecord)
    (mp mx : Nat) : List ProductRecord :=
  (scrape_run o init mp mx).products_data

/-! ### Retry loop (make_request_with_retry)

Oracles: outcome gives each attempt's result (a status code, or a request
exception), delays gives the politeness delay drawn before each attempt, and
jitter the uniform(1,3) draw used in the 503 branch. The result records the
returned response status (None for failure), the number of attempts actually
performed, and the trace of every time.sleep duration in order. -/

def retry_loop (outcome : Nat → Except Unit Nat) (delays jitter : Nat → ℚ)
    (max_retries : Nat) : Nat → Nat → List ℚ → Option Nat × Nat × List ℚ
  | 0, i, sleeps => (none, i, sleeps)
  | fuel + 1, i, sleeps =>
    let sleeps1 := sleeps ++ [delays i]
    match outcome i with
    | Except.ok code =>
      if code = 200 then (some code, i + 1, sleeps1)
      else if code = 503 then
        retry_loop outcome delays jitter max_retries fuel (i + 1)
          (sleeps1 ++ [(2 : ℚ) ^ i + jitter i])
      else
        retry_loop outcome delays jitter max_retries fuel (i + 1)
          (sleeps1 ++ [(2 : ℚ) ^ i])
    | Except.error _ =>
        retry_loop outcome delays jitter max_retries fuel (i + 1)
          (if i < max_retries - 1 then sleeps1 ++ [(2 : ℚ) ^ i] else sleeps1)

/-- make_request_with_retry from the source: up to max_retries attempts, an
immediate return on HTTP 200, backoff sleeps of 2 to the attempt plus jitter
on 503 and of 2 to the attempt otherwise (skipped after the last attempt only
in the exception branch), then None. -/
def make_request_with_retry (outcome : Nat → Except Unit Nat)
    (delays jitter : Nat → ℚ) (max_retries : Nat := 3) : Option Nat × Nat × List ℚ :=
  retry_loop outcome delays jitter max_retries max_retries 0 []

/-! ### Analytics transform (create_powerbi_dataset and the categorizers) -/

/-- categorize_price from the source, with its exact label strings. -/
def categorize_price (price : Option ℚ) : String :=
  match price with
  | none => "No Price Listed"
  | some p =>
    if p < 500 then "Under ₹500"
    else if p < 1000 then "₹500 - ₹1,000"
    else if p < 2000 then "₹1,000 - ₹2,000"
    else if p < 5000 then "₹2,000 - ₹5,000"
    else "Above ₹5,000"

/-- categorize_rating from the source. -/
def categorize_rating (rating : Option ℚ) : String :=
  match rating with
  | none => "No Rating"
  | some r =>
    if 4.5 ≤ r then "Excellent (4.5+)"
    else if 4.0 ≤ r then "Very Good (4.0-4.4)"
    else if 3.5 ≤ r then "Good (3.5-3.9)"
    else if 3.0 ≤ r then "Average (3.0-3.4)"
    else "Below Average (<3.0)"

/-- categorize_reviews from the source; its argument is the review count
after the fill of missing values by 0, hence a Nat. -/
def categorize_reviews (review_count : Nat) : String :=
  if review_count = 0 then "No Reviews"
  else if review_count < 10 then "Few Reviews (1-9)"
  else if review_count < 50 then "Some Reviews (10-49)"
  else if review_count < 100 then "Many Reviews (50-99)"
  else if review_count < 500 then "Lots of Reviews (100-499)"
  else "Very Popular (500+)"

structure AnalyticsRecord where
  product_name : String
  price_inr : Option ℚ
  rating : Option ℚ
  number_of_reviews : Nat
  product_url : String
  price_range : String
  rating_category : String
  review_category : String
  has_price : Bool
  has_rating : Bool
  has_reviews : Bool
  deriving DecidableEq

/-- The row-wise restriction of create_powerbi_dataset: what one output row
holds as a function of its source ProductRecord alone. Product_Name and
Product_URL are always strings in a ProductRecord, so their missing-value
fills are the identity; a missing review count is filled by 0. -/
def normalize (r : ProductRecord) : AnalyticsRecord :=
  { product_name := r.name
    price_inr := r.price
    rating := r.rating
    number_of_reviews := r.reviewCount.getD 0
    product_url := r.url
    price_range := categorize_price r.price
    rating_category := categorize_rating r.rating
    review_category := categorize_reviews (r.reviewCount.getD 0)
    has_price := r.price.isSome
    has_rating := r.rating.isSome
    has_reviews := 0 < r.reviewCount.getD 0 }

/-- Zip the five base columns back into rows, attaching the derived columns;
each derived column of the source is an elementwise apply of one base column,
so it is computed here from that row's base values. -/
def buildRows : List String → List (Option ℚ) → List (Option ℚ) → List Nat →
    List String → List AnalyticsRecord
  | n :: ns, p :: ps, ra :: ras, re :: res, u :: us =>
    { product_name := n
      price_inr := p
      rating := ra
      number_of_reviews := re
      product_url := u
      price_range := categorize_price p
      rating_category := categorize_rating ra
      review_category := categorize_reviews re
      has_price := p.isSome
      has_rating := ra.isSome
      has_reviews := 0 < re } :: buildRows ns ps ras res us
  | _, _, _, _, _ => []

/-- create_powerbi_dataset from the source, column-oriented as the pandas
code is: an empty input yields an empty frame; otherwise each base column is
projected from the records, the derived columns are elementwise functions of
a base column, and the result is the rows of those columns. -/
def create_powerbi_dataset (rs : List ProductRecord) : List AnalyticsRecord :=
  if rs.isEmpty then []
  else
    buildRows (rs.map (fun r => r.name)) (rs.map (fun r => r.price))
      (rs.map (fun r => r.rating)) (rs.map (fun r => r.reviewCount.getD 0))
      (rs.map (fun r => r.url))

/-! ### Concrete fixtures used to instantiate the theorems -/

/-- A well-formed product element: a name under the first name selector. -/
def demo_element : PageElement :=
  { text := "Wooden Blocks", ariaLabel := "", href := "/dp/B00X" }

def demo_container : Container :=
  { select_one := fun s => if s = "h2 a span" then some demo_element else none }

/-- A page whose first container strategy yields two product containers. -/
def demo_page : Page :=
  { select := fun s =>
      if s = "[data-component-type=\"s-search-result\"]" then
        [demo_container, demo_container]
      else [] }

/-- Page 1 succeeds with demo_page; every other page request fails. -/
def demo_oracle : Nat → Option Page :=
  fun n => if n = 1 then some demo_page else none

/-- A container whose rating element reads a value above five stars. -/
def rogue_element : PageElement :=
  { text := "9 out of 5 stars", ariaLabel := "", href := "" }

def rogue_container : Container :=
  { select_one := fun s => if s = ".a-icon-alt" then some rogue_element else none }

/-! ## Supporting lemmas -/

theorem priceScan_none_iff (l : List Char) :
    priceScan l = none ↔ ∀ c ∈ l, ¬ c.isDigit := by
  induction l with
  | nil => simp [priceScan]
  | cons c rest ih =>
    by_cases hc : c.isDigit
    · simp [priceScan, hc]
    · simp [priceScan, hc, ih]

theorem stripCommas_no_digit_iff (l : List Char) :
    (∀ c ∈ stripCommas l, ¬ c.isDigit) ↔ ∀ c ∈ l, ¬ c.isDigit := by
  constructor
  · intro h c hc hdig
    refine h c (List.mem_filter.mpr ⟨hc, ?_⟩) hdig
    have hne : c ≠ ',' := by
      intro heq
      subst heq
      exact absurd hdig (by decide)
    simpa using hne
  · intro h c hc
    exact h c (List.mem_filter.mp hc).1

theorem reviewMatch_eq_none (l : List Char) (h : ∀ c ∈ l, ¬ c.isDigit) :
    reviewMatch l = none := by
  induction l with
  | nil => rfl
  | cons c rest ih =>
    have hc : ¬ c.isDigit := h c (by simp)
    simp only [reviewMatch, hc, if_false, Bool.false_eq_true]
    exact ih (fun x hx => h x (by simp [hx]))

theorem extract_review_count_none_of_no_digit (t : String)
    (h : ∀ c ∈ t.data, ¬ c.isDigit) : extract_review_count t = none := by
  unfold extract_review_count
  split
  · rfl
  · rw [reviewMatch_eq_none _ ((stripCommas_no_digit_iff t.data).mpr h)]

theorem extract_rating_nonneg (t : String) (q : ℚ)
    (h : extract_rating t = some q) : 0 ≤ q := by
  unfold extract_rating at h
  split at h
  · exact absurd h (by simp)
  · cases hscan : ratingScan t.data with
    | none => rw [hscan] at h; simp at h
    | some parts =>
      rw [hscan] at h
      simp only [Option.map_some'] at h
      obtain ⟨n, f, k⟩ := parts
      rw [← Option.some_inj.mp h]
      unfold ratOfRatingParts
      positivity

theorem validReviewText_false_no_digit (t : String)
    (h : validReviewText t = false) : ∀ c ∈ t.data, ¬ c.isDigit := by
  unfold validReviewText at h
  rw [Bool.or_eq_false_iff] at h
  intro c hc hdig
  rw [List.any_eq_false] at h
  exact absurd hdig (h.2 c hc)

theorem findReview_extraction_eq (c : Container) (L : List String) :
    (match findReviewElement c L with
     | some e => extract_review_count e.text
     | none => none) =
    (firstValidatedCandidate c L).bind (fun e => extract_review_count e.text) := by
  induction L with
  | nil => rfl
  | cons s rest ih =>
    unfold findReviewElement firstValidatedCandidate
    cases hsel : c.select_one s with
    | none => exact ih
    | some e =>
      by_cases hv : validReviewText e.text
      · simp [hv]
      · rw [Bool.not_eq_true] at hv
        simp only [hv, Bool.false_eq_true, if_false]
        cases rest with
        | nil =>
          simp only [List.isEmpty_nil, if_true]
          simpa using extract_review_count_none_of_no_digit e.text
            (validReviewText_false_no_digit e.text hv)
        | cons s2 rest2 =>
          simpa using ih

/-! ## Claim theorems -/

/-- Claim C2: for every container, the reviewCount field equals the value of
the first selector candidate whose text validates (contains the
case-insensitive substring review or a digit), its digit sequence with
separators stripped parsed as an integer, and is null whenever no candidate
validates — the code's selector loop agrees with the spec-worded
firstValidatedCandidate chain. -/
theorem review_count_matches_spec (c : Container) :
    (scrape_product_details c).reviewCount =
      (firstValidatedCandidate c review_selectors).bind
        (fun e => extract_review_count e.text) := by
  show extract_review_field c = _
  unfold extract_review_field
  exact findReview_extraction_eq c review_selectors

/-- Claim C6: extract_price maps the string with rupee sign, thousands comma
and two decimals to 1234.50, maps the empty string to null, and in general
returns null exactly when the input holds no parseable numeric pattern, that
is, no digit at all. -/
theorem extract_price_spec :
    extract_price "₹1,234.50" = some (1234.5 : ℚ) ∧
    extract_price "" = none ∧
    ∀ s : String, extract_price s = none ↔ ∀ c ∈ s.data, ¬ c.isDigit := by
  refine ⟨?_, by decide, ?_⟩
  · unfold extract_price
    rw [if_neg (by decide)]
    rw [show priceScan (stripCommas ("₹1,234.50").data) = some (1234, some 50) from by decide]
    simp only [Option.map_some', ratOfPriceParts]
    norm_num
  · intro s
    unfold extract_price
    by_cases hs : s = ""
    · subst hs
      exact iff_of_true (if_pos rfl) (by decide)
    · rw [if_neg hs, Option.map_eq_none', priceScan_none_iff]
      exact stripCommas_no_digit_iff s.data

theorem extract_price_spec_witness : extract_price "abc" = none :=
  (extract_price_spec.2.2 "abc").mpr (by decide)

theorem categorize_price_some (p : ℚ) : categorize_price (some p) =
    (if p < 500 then "Under ₹500"
     else if p < 1000 then "₹500 - ₹1,000"
     else if p < 2000 then "₹1,000 - ₹2,000"
     else if p < 5000 then "₹2,000 - ₹5,000"
     else "Above ₹5,000") := rfl

/-- Claim C7 counterexample: the code's bucket labels carry rupee signs and
thousands separators, so categorizePrice applied to 499 and 500 does not
return the claimed literal labels. -/
theorem categorize_price_label_counterexample :
    categorize_price (some 499) ≠ "Under 500" ∧
    categorize_price (some 500) ≠ "500-1000" := by
  constructor <;> decide

/-- Claim C7 (amended): categorize_price maps null to the label No Price
Listed and otherwise buckets by 0 to 500, 500 to 1000, 1000 to 2000, 2000 to
5000 and 5000 upward, lower bound inclusive and upper bound exclusive, with
the code's labels Under ₹500, ₹500 - ₹1,000, ₹1,000 - ₹2,000,
₹2,000 - ₹5,000 and Above ₹5,000; in particular 499 lands in the first
bucket and 500 in the second. -/
theorem categorize_price_buckets :
    categorize_price none = "No Price Listed" ∧
    categorize_price (some 499) = "Under ₹500" ∧
    categorize_price (some 500) = "₹500 - ₹1,000" ∧
    ∀ p : ℚ, 0 ≤ p →
      ((categorize_price (some p) = "Under ₹500" ↔ p < 500) ∧
       (categorize_price (some p) = "₹500 - ₹1,000" ↔ 500 ≤ p ∧ p < 1000) ∧
       (categorize_price (some p) = "₹1,000 - ₹2,000" ↔ 1000 ≤ p ∧ p < 2000) ∧
       (categorize_price (some p) = "₹2,000 - ₹5,000" ↔ 2000 ≤ p ∧ p < 5000) ∧
       (categorize_price (some p) = "Above ₹5,000" ↔ 5000 ≤ p)) := by
  refine ⟨rfl, by decide, by decide, ?_⟩
  intro p _
  rw [categorize_price_some]
  refine ⟨?_, ?_, ?_, ?_, ?_⟩ <;>
    (split_ifs with h1 h2 h3 h4 <;> constructor <;> intro hx <;>
      first
        | (exfalso; revert hx; decide)
        | (constructor <;> linarith)
        | linarith)

theorem categorize_price_buckets_witness :
    categorize_price (some 750) = "₹500 - ₹1,000" :=
  ((categorize_price_buckets.2.2.2 750 (by decide)).2.1).mpr (by decide)

/-- Claim C9 counterexample: a container whose rating element reads 9 out of
5 stars yields a ProductRecord with rating 9, outside the closed interval
from 0 to 5 — extraction does not enforce the upper bound. -/
theorem rating_range_counterexample :
    (scrape_product_details rogue_container).rating = some (9 : ℚ) ∧
    ¬ ((9 : ℚ) ≤ 5) := by
  constructor
  · show extract_rating_field rogue_container = some 9
    unfold extract_rating_field
    rw [show firstMatch rogue_container rating_selectors = some rogue_element from by decide]
    show extract_rating (if rogue_element.ariaLabel ≠ "" then rogue_element.ariaLabel
      else rogue_element.text) = some 9
    rw [show (if rogue_element.ariaLabel ≠ "" then rogue_element.ariaLabel
        else rogue_element.text) = "9 out of 5 stars" from by decide]
    unfold extract_rating
    rw [if_neg (by decide)]
    rw [show ratingScan ("9 out of 5 stars").data = some (9, 0, 0) from by decide]
    simp only [Option.map_some', ratOfRatingParts]
    norm_num
  · decide

/-- Claim C9 (amended): every ProductRecord produced by extraction has a
rating field that is either null or a non-negative decimal; the upper bound
5 is not enforced by the code. -/
theorem rating_nonneg_of_extracted (c : Container) (q : ℚ)
    (h : (scrape_product_details c).rating = some q) : 0 ≤ q := by
  have h2 : extract_rating_field c = some q := h
  unfold extract_rating_field at h2
  cases hm : firstMatch c rating_selectors with
  | none => rw [hm] at h2; exact absurd h2 (by simp)
  | some e =>
    rw [hm] at h2
    exact extract_rating_nonneg _ _ h2

theorem rating_nonneg_witness : (0 : ℚ) ≤ ratOfRatingParts (9, 0, 0) :=
  rating_nonneg_of_extracted rogue_container (ratOfRatingParts (9, 0, 0)) rfl

/-- Claim C5: when every attempt yields HTTP 503, make_request_with_retry
performs exactly 3 attempts, sleeps the politeness delay before each attempt
and 2 to the attempt plus the uniform(1,3) jitter after each 503, and
returns failure (None); in this total embedding no exception can escape. -/
theorem retry_all_503_exhausts (outcome : Nat → Except Unit Nat)
    (delays jitter : Nat → ℚ) (h : ∀ i, outcome i = Except.ok 503) :
    make_request_with_retry outcome delays jitter 3 =
      (none, 3,
        [delays 0, (2 : ℚ) ^ 0 + jitter 0, delays 1, (2 : ℚ) ^ 1 + jitter 1,
         delays 2, (2 : ℚ) ^ 2 + jitter 2]) := by
  simp [make_request_with_retry, retry_loop, h 0, h 1, h 2]

theorem retry_all_503_exhausts_witness :
    make_request_with_retry (fun _ => Except.ok 503) (fun _ => 3) (fun _ => 2) 3 =
      (none, 3, [3, 3, 3, 4, 3, 6]) := by
  have h := retry_all_503_exhausts (fun _ => Except.ok 503) (fun _ => 3)
    (fun _ => 2) (fun _ => rfl)
  rw [h]
  norm_num

/-! ## Pagination lemmas -/

theorem process_containers_cons (mx : Nat) (c : Container) (rest : List Container)
    (k : Nat) (acc : List ProductRecord) :
    process_containers mx (c :: rest) k acc =
      if mx ≤ k then (k, acc)
      else if (scrape_product_details c).name ≠ "" then
        process_containers mx rest (k + 1) (acc ++ [scrape_product_details c])
      else process_containers mx rest k acc := rfl

theorem process_containers_fst_le (mx : Nat) (cs : List Container) :
    ∀ k acc, k ≤ mx → (process_containers mx cs k acc).1 ≤ mx := by
  induction cs with
  | nil => intro k acc h; exact h
  | cons c rest ih =>
    intro k acc h
    rw [process_containers_cons]
    split_ifs with h1 h2
    · exact h
    · exact ih (k + 1) _ (by omega)
    · exact ih k _ h

theorem process_containers_len (mx : Nat) (cs : List Container) :
    ∀ k acc, acc.length = k →
      (process_containers mx cs k acc).2.length = (process_containers mx cs k acc).1 := by
  induction cs with
  | nil => intro k acc h; exact h
  | cons c rest ih =>
    intro k acc h
    rw [process_containers_cons]
    split_ifs with h1 h2
    · exact h
    · exact ih (k + 1) _ (by simp [h])
    · exact ih k _ h

theorem process_containers_append (mx : Nat) (cs : List Container) :
    ∀ k acc, ∃ ex, (process_containers mx cs k acc).2 = acc ++ ex := by
  induction cs with
  | nil => intro k acc; exact ⟨[], by simp [process_containers]⟩
  | cons c rest ih =>
    intro k acc
    rw [process_containers_cons]
    split_ifs with h1 h2
    · exact ⟨[], by simp⟩
    · obtain ⟨ex, hex⟩ := ih (k + 1) (acc ++ [scrape_product_details c])
      exact ⟨scrape_product_details c :: ex, by simp [hex]⟩
    · exact ih k acc

theorem process_containers_names (mx : Nat) (cs : List Container) :
    ∀ k acc, (∀ r ∈ acc, r.name ≠ "") →
      ∀ r ∈ (process_containers mx cs k acc).2, r.name ≠ "" := by
  induction cs with
  | nil => intro k acc h; exact h
  | cons c rest ih =>
    intro k acc h
    rw [process_containers_cons]
    split_ifs with h1 h2
    · exact h
    · refine ih (k + 1) _ ?_
      intro r hr
      rcases List.mem_append.mp hr with h3 | h3
      · exact h r h3
      · rw [List.mem_singleton.mp h3]; exact h2
    · exact ih k acc h

theorem scrape_step_fetched (o : Nat → Option Page) (mx : Nat) (s : ScrapeState) :
    (scrape_step o mx s).fetched = s.fetched ++ [s.page_num] := by
  unfold scrape_step
  cases o s.page_num with
  | none => rfl
  | some page =>
    by_cases he : (find_containers page product_selectors).isEmpty
    · simp only [he, if_true]
    · simp only [he, Bool.false_eq_true, if_false]

theorem scrape_step_fail (o : Nat → Option Page) (mx : Nat) (s : ScrapeState)
    (h : o s.page_num = none) :
    scrape_step o mx s =
      { s with fetched := s.fetched ++ [s.page_num],
               consecutive_failures := s.consecutive_failures + 1,
               page_num := s.page_num + 1 } := by
  unfold scrape_step
  rw [h]

theorem scrape_step_success_cf (o : Nat → Option Page) (mx : Nat) (s : ScrapeState)
    (page : Page) (h : o s.page_num = some page)
    (hne : find_containers page product_selectors ≠ []) :
    (scrape_step o mx s).consecutive_failures = 0 := by
  unfold scrape_step
  rw [h]
  have he : (find_containers page product_selectors).isEmpty = false := by
    cases hfc : find_containers page product_selectors with
    | nil => exact absurd hfc hne
    | cons a l => rfl
  simp [he]

theorem scrape_loop_not_cond (o : Nat → Option Page) (mp mx f : Nat) (s : ScrapeState)
    (h : ¬ loop_cond mp mx s) : scrape_loop o mp mx f s = s := by
  cases f with
  | zero => rfl
  | succ f => simp [scrape_loop, h]

theorem scrape_loop_succ (o : Nat → Option Page) (mp mx f : Nat) (s : ScrapeState)
    (h : loop_cond mp mx s) :
    scrape_loop o mp mx (f + 1) s = scrape_loop o mp mx f (scrape_step o mx s) := by
  simp [scrape_loop, h]

theorem scrape_step_names (o : Nat → Option Page) (mx : Nat) (s : ScrapeState)
    (h : ∀ r ∈ s.products_data, r.name ≠ "") :
    ∀ r ∈ (scrape_step o mx s).products_data, r.name ≠ "" := by
  unfold scrape_step
  cases o s.page_num with
  | none => exact h
  | some page =>
    by_cases he : (find_containers page product_selectors).isEmpty
    · simp only [he, if_true]
      exact h
    · simp only [he, Bool.false_eq_true, if_false]
      exact process_containers_names mx _ _ _ h

theorem scrape_loop_names (o : Nat → Option Page) (mp mx : Nat) :
    ∀ f s, (∀ r ∈ s.products_data, r.name ≠ "") →
      ∀ r ∈ (scrape_loop o mp mx f s).products_data, r.name ≠ "" := by
  intro f
  induction f with
  | zero => intro s h; exact h
  | succ f ih =>
    intro s h
    by_cases hc : loop_cond mp mx s
    · rw [scrape_loop_succ o mp mx f s hc]
      exact ih _ (scrape_step_names o mx s h)
    · rw [scrape_loop_not_cond o mp mx _ s hc]
      exact h

theorem scrape_step_len (o : Nat → Option Page) (mx : Nat) (s : ScrapeState)
    (h1 : s.products_data.length = s.products_scraped)
    (h2 : s.products_scraped ≤ mx) :
    (scrape_step o mx s).products_data.length = (scrape_step o mx s).products_scraped ∧
    (scrape_step o mx s).products_scraped ≤ mx := by
  unfold scrape_step
  cases o s.page_num with
  | none => exact ⟨h1, h2⟩
  | some page =>
    by_cases he : (find_containers page product_selectors).isEmpty
    · simp only [he, if_true]
      exact ⟨h1, h2⟩
    · simp only [he, Bool.false_eq_true, if_false]
      exact ⟨process_containers_len mx _ _ _ h1, process_containers_fst_le mx _ _ _ h2⟩

theorem scrape_loop_len_le (o : Nat → Option Page) (mp mx : Nat) :
    ∀ f s, s.products_data.length = s.products_scraped → s.products_scraped ≤ mx →
      (scrape_loop o mp mx f s).products_data.length =
        (scrape_loop o mp mx f s).products_scraped ∧
      (scrape_loop o mp mx f s).products_scraped ≤ mx := by
  intro f
  induction f with
  | zero => intro s h1 h2; exact ⟨h1, h2⟩
  | succ f ih =>
    intro s h1 h2
    by_cases hc : loop_cond mp mx s
    · rw [scrape_loop_succ o mp mx f s hc]
      obtain ⟨g1, g2⟩ := scrape_step_len o mx s h1 h2
      exact ih _ g1 g2
    · rw [scrape_loop_not_cond o mp mx _ s hc]
      exact ⟨h1, h2⟩

theorem scrape_step_append (o : Nat → Option Page) (mx : Nat) (s : ScrapeState) :
    ∃ ex, (scrape_step o mx s).products_data = s.products_data ++ ex := by
  unfold scrape_step
  cases o s.page_num with
  | none => exact ⟨[], by simp⟩
  | some page =>
    by_cases he : (find_containers page product_selectors).isEmpty
    · simp only [he, if_true]
      exact ⟨[], by simp⟩
    · simp only [he, Bool.false_eq_true, if_false]
      exact process_containers_append mx _ _ _

theorem scrape_loop_append (o : Nat → Option Page) (mp mx : Nat) :
    ∀ f s, ∃ ex, (scrape_loop o mp mx f s).products_data = s.products_data ++ ex := by
  intro f
  induction f with
  | zero => intro s; exact ⟨[], by simp [scrape_loop]⟩
  | succ f ih =>
    intro s
    by_cases hc : loop_cond mp mx s
    · rw [scrape_loop_succ o mp mx f s hc]
      obtain ⟨ex1, g1⟩ := scrape_step_append o mx s
      obtain ⟨ex2, g2⟩ := ih (scrape_step o mx s)
      exact ⟨ex1 ++ ex2, by rw [g2, g1, List.append_assoc]⟩
    · rw [scrape_loop_not_cond o mp mx _ s hc]
      exact ⟨[], by simp⟩

/-- Claim C1: on a fresh scraper instance (products_data initialised empty),
no record with empty name is ever appended: every record in the sequence
returned by scrape_toys_category has a non-empty name. -/
theorem scrape_output_names_nonempty (o : Nat → Option Page) (mp mx : Nat)
    (r : ProductRecord) (hr : r ∈ scrape_toys_category o [] mp mx) :
    r.name ≠ "" := by
  refine scrape_loop_names o mp mx mp _ ?_ r hr
  intro x hx
  exact absurd hx (List.not_mem_nil x)

theorem scrape_output_names_nonempty_witness :
    (scrape_product_details demo_container).name ≠ "" :=
  scrape_output_names_nonempty demo_oracle 1 5
    (scrape_product_details demo_container) (by decide)

/-- Claim C4 counterexample: on a reused instance whose products_data
accumulator already holds the records of a first run, a run with
max_products 1 returns more than 1 record, so the bound does not hold for
every run of scrape_toys_category. -/
theorem max_products_counterexample :
    ¬ ((scrape_toys_category demo_oracle
        (scrape_toys_category demo_oracle [] 1 2) 1 1).length ≤ 1) := by decide

/-- Claim C4 (amended): a run of scrape_toys_category on a fresh instance —
products_data initially empty, as the constructor sets it — returns at most
max_products records, for every max_pages and max_products. -/
theorem scrape_at_most_max_products (o : Nat → Option Page) (mp mx : Nat) :
    (scrape_toys_category o [] mp mx).length ≤ mx := by
  have h := scrape_loop_len_le o mp mx mp
    { page_num := 1, products_scraped := 0, consecutive_failures := 0,
      products_data := [], fetched := [] } rfl (Nat.zero_le mx)
  exact h.1.trans_le h.2

/-- Claim C3: the pagination loop continues exactly while page_num is at
most max_pages, products_scraped below max_products and
consecutive_failures below 3 (parts 1 and 2, with each iteration fetching
exactly the current page); a successful page — a response whose container
strategies locate at least one container — resets consecutive_failures to 0
(part 3); once consecutive_failures reaches 3 no further page is ever
fetched (part 4); and with every page failing, a run fetches exactly pages
1, 2 and 3 regardless of the remaining max_pages budget (part 5). -/
theorem pagination_guard_and_circuit_breaker (o : Nat → Option Page) (mp mx : Nat) :
    (∀ f s, ¬ loop_cond mp mx s → scrape_loop o mp mx f s = s) ∧
    (∀ f s, loop_cond mp mx s →
      scrape_loop o mp mx (f + 1) s = scrape_loop o mp mx f (scrape_step o mx s) ∧
      (scrape_step o mx s).fetched = s.fetched ++ [s.page_num]) ∧
    (∀ s page, o s.page_num = some page →
      find_containers page product_selectors ≠ [] →
      (scrape_step o mx s).consecutive_failures = 0) ∧
    (∀ f s, 3 ≤ s.consecutive_failures → scrape_loop o mp mx f s = s) ∧
    (3 ≤ mp → 0 < mx → (∀ n, o n = none) →
      ∀ init, (scrape_run o init mp mx).fetched = [1, 2, 3]) := by
  refine ⟨fun f s h => scrape_loop_not_cond o mp mx f s h,
    fun f s h => ⟨scrape_loop_succ o mp mx f s h, scrape_step_fetched o mx s⟩,
    fun s page h hne => scrape_step_success_cf o mx s page h hne,
    fun f s h => scrape_loop_not_cond o mp mx f s
      (fun hc => absurd hc.2.2 (Nat.not_lt.mpr h)),
    ?_⟩
  intro h3 hmx ho init
  obtain ⟨k, hk⟩ : ∃ k, mp = k + 3 := ⟨mp - 3, by omega⟩
  subst hk
  have e1 : scrape_step o mx
      { page_num := 1, products_scraped := 0, consecutive_failures := 0,
        products_data := init, fetched := [] } =
      { page_num := 2, products_scraped := 0, consecutive_failures := 1,
        products_data := init, fetched := [1] } := by
    rw [scrape_step_fail o mx _ (ho 1)]; rfl
  have e2 : scrape_step o mx
      { page_num := 2, products_scraped := 0, consecutive_failures := 1,
        products_data := init, fetched := [1] } =
      { page_num := 3, products_scraped := 0, consecutive_failures := 2,
        products_data := init, fetched := [1, 2] } := by
    rw [scrape_step_fail o mx _ (ho 2)]; rfl
  have e3 : scrape_step o mx
      { page_num := 3, products_scraped := 0, consecutive_failures := 2,
        products_data := init, fetched := [1, 2] } =
      { page_num := 4, products_scraped := 0, consecutive_failures := 3,
        products_data := init, fetched := [1, 2, 3] } := by
    rw [scrape_step_fail o mx _ (ho 3)]; rfl
  show (scrape_loop o (k + 3) mx (k + 3)
    { page_num := 1, products_scraped := 0, consecutive_failures := 0,
      products_data := init, fetched := [] }).fetched = [1, 2, 3]
  rw [show k + 3 = (k + 2) + 1 from rfl,
    scrape_loop_succ o (k + 2 + 1) mx (k + 2) _
      ⟨(by omega : (1 : Nat) ≤ k + 2 + 1), hmx, (by omega : (0 : Nat) < 3)⟩, e1,
    show k + 2 = (k + 1) + 1 from rfl,
    scrape_loop_succ o (k + 1 + 1 + 1) mx (k + 1) _
      ⟨(by omega : (2 : Nat) ≤ k + 1 + 1 + 1), hmx, (by omega : (1 : Nat) < 3)⟩, e2,
    show k + 1 = k + 0 + 1 from rfl,
    scrape_loop_succ o (k + 0 + 1 + 1 + 1) mx (k + 0) _
      ⟨(by omega : (3 : Nat) ≤ k + 0 + 1 + 1 + 1), hmx, (by omega : (2 : Nat) < 3)⟩, e3,
    scrape_loop_not_cond o _ mx _ _
      (fun hc => absurd hc.2.2 (by omega : ¬ (3 : Nat) < 3))]

theorem pagination_circuit_breaker_witness :
    (scrape_run (fun _ => none) [] 5 7).fetched = [1, 2, 3] :=
  (pagination_guard_and_circuit_breaker (fun _ => none) 5 7).2.2.2.2
    (by decide) (by decide) (fun _ => rfl) []

/-- Claim C10: scrape_toys_category never clears products_data: every run
returns the whole accumulator, the initial contents followed by the newly
appended records; concretely, a first run on demo_oracle with max_products 2
collects 2 records and a second run on the same accumulator with
max_products 1 returns 3 records, exceeding the second call's bound. -/
theorem products_data_accumulates :
    (∀ (o : Nat → Option Page) (init : List ProductRecord) (mp mx : Nat),
      ∃ new, scrape_toys_category o init mp mx = init ++ new) ∧
    (scrape_toys_category demo_oracle
      (scrape_toys_category demo_oracle [] 1 2) 1 1).length = 3 ∧
    1 < (scrape_toys_category demo_oracle
      (scrape_toys_category demo_oracle [] 1 2) 1 1).length := by
  refine ⟨?_, by decide, by decide⟩
  intro o init mp mx
  exact scrape_loop_append o mp mx mp _

theorem buildRows_map (rs : List ProductRecord) :
    buildRows (rs.map (fun r => r.name)) (rs.map (fun r => r.price))
      (rs.map (fun r => r.rating)) (rs.map (fun r => r.reviewCount.getD 0))
      (rs.map (fun r => r.url)) = rs.map normalize := by
  induction rs with
  | nil => rfl
  | cons r rest ih => simp [buildRows, normalize, ih]

/-- Claim C8: the ProductRecord to AnalyticsRecord normalization is pure and
deterministic: the column-oriented dataset construction equals a pointwise
map of the pure row function normalize — each output row depends only on its
own input record, with no call-order dependence — and equal inputs give
equal (bit-identical, in this embedding structurally equal) outputs. -/
theorem normalize_pure_map :
    (∀ rs : List ProductRecord, create_powerbi_dataset rs = rs.map normalize) ∧
    (∀ r₁ r₂ : ProductRecord, r₁ = r₂ → normalize r₁ = normalize r₂) := by
  constructor
  · intro rs
    cases rs with
    | nil => rfl
    | cons r rest =>
      show buildRows _ _ _ _ _ = _
      exact buildRows_map (r :: rest)
  · intro r₁ r₂ h
    rw [h]

theorem normalize_pure_map_witness :
    normalize ⟨"A", "", none, none, none⟩ = normalize ⟨"A", "", none, none, none⟩ :=
  normalize_pure_map.2 _ _ rfl

end Khilonamart
